import Mathlib

/-!
A shallow embedding of the IoAwaitable protocol demo
(source file d4003-io-awaitables.cpp, inlined from Boost.Capy).

Modelling conventions: pointers are natural numbers, null pointers are
Option.none.  A std::pmr::memory_resource pointer is an address (Nat);
the thread-local slot current_frame_allocator() is an explicit
Option Nat threaded through every operation that reads or writes it.
Exceptions are identifiers (Nat) carried in Except.  Coroutine bodies
are embedded as an inductive of the statement shapes used by the demo
tasks, evaluated by an executable interpreter that mirrors the
suspension and resumption protocol of the source line by line.
-/

namespace Capy

/-- A std::coroutine_handle of unknown promise: either the
distinguished no-op coroutine returned by std::noop_coroutine(), or a
real coroutine frame identified by its address. -/
inductive CoroHandle where
  | noop
  | real (id : Nat)
deriving DecidableEq

/-- The type-erased executor handle executor_ref: a pointer to the
wrapped executor object (field ex_) and a pointer to the per-type
dispatch table detail::vtable_for of the wrapped type (field vt_).
Distinct concrete executor types have distinct vtable addresses; both
fields are null after default construction. -/
structure executor_ref where
  ex_ : Option Nat := none
  vt_ : Option Nat := none
deriving DecidableEq

/-- The ambient collection of concrete executor types: equalsImpl v a b
is the result of the equals entry of the vtable at address v applied to
the two wrapped object pointers a and b, i.e. the concrete equality of
the wrapped type evaluated on the two wrapped values. -/
structure ExecWorld where
  equalsImpl : Nat → Option Nat → Option Nat → Bool

/-- executor_ref equality (operator==): pointer identity first, then
vtable (concrete type) identity, then the concrete equality through the
vtable.  In the source the last branch calls through vt_; a handle
whose vt_ is null never reaches that branch when the object pointers
are as the constructors leave them (see executor_ref.WF), and the model
gives that unreachable branch the value false. -/
def executor_ref.beq (w : ExecWorld) (a b : executor_ref) : Bool :=
  if a.ex_ = b.ex_ then true
  else if a.vt_ ≠ b.vt_ then false
  else match a.vt_ with
       | some v => w.equalsImpl v a.ex_ b.ex_
       | none => false

/-- Well-formedness of an executor_ref as established by its
constructors: the object pointer and the vtable pointer are either both
null (default construction) or both set (the converting constructor
stores the address of the wrapped value and the address of its
vtable). -/
def executor_ref.WF (r : executor_ref) : Prop :=
  r.ex_ = none ↔ r.vt_ = none

/-- A std::stop_token, reduced to the two observations the demo makes
of it. -/
structure StopToken where
  stop_possible : Bool := false
  stop_requested : Bool := false
deriving DecidableEq

/-- The io_env execution environment: executor handle, stop token and
allocator (a std::pmr::memory_resource pointer, null by default). -/
structure io_env where
  executor : executor_ref := {}
  stop_token : StopToken := {}
  allocator : Option Nat := none
deriving DecidableEq

/-- The mutable state of the io_awaitable_support CRTP mixin: the
environment pointer env_ (modelled by the pointed-to value) and the
continuation handle cont_, initialised to the no-op coroutine. -/
structure io_awaitable_support where
  env_ : Option io_env := none
  cont_ : CoroHandle := CoroHandle.noop
deriving DecidableEq

/-- set_continuation(cont): stores the handle in cont_. -/
def io_awaitable_support.set_continuation
    (s : io_awaitable_support) (cont : CoroHandle) : io_awaitable_support :=
  { s with cont_ := cont }

/-- continuation(): std::exchange(cont_, std::noop_coroutine()) —
returns the stored handle and resets the field to the no-op
coroutine. -/
def io_awaitable_support.continuation
    (s : io_awaitable_support) : CoroHandle × io_awaitable_support :=
  (s.cont_, { s with cont_ := CoroHandle.noop })

/-- set_environment(env): stores the environment pointer. -/
def io_awaitable_support.set_environment
    (s : io_awaitable_support) (env : io_env) : io_awaitable_support :=
  { s with env_ := some env }

/-- environment(): reads the stored environment pointer. -/
def io_awaitable_support.environment
    (s : io_awaitable_support) : Option io_env :=
  s.env_

/-- The io_awaitable_support destructor: destroys the frame of the
stored continuation when it is not the no-op coroutine; the result is
the list of coroutine frames destroyed. -/
def io_awaitable_support.dtor (s : io_awaitable_support) : List CoroHandle :=
  if s.cont_ ≠ CoroHandle.noop then [s.cont_] else []

/-- The await_suspend of the awaiter returned by final_suspend of
task promise_type: hands the stored continuation out for
symmetric-transfer resumption by calling continuation(). -/
def final_suspend_await_suspend
    (p : io_awaitable_support) : CoroHandle × io_awaitable_support :=
  p.continuation

/-- alignof applied to a data pointer type. -/
def ptr_alignment : Nat := 8

/-- sizeof applied to a std::pmr::memory_resource pointer. -/
def sizeof_mr_ptr : Nat := 8

/-- alignof applied to std::max_align_t. -/
def max_align : Nat := 16

/-- io_awaitable_support::aligned_offset: the source computes
(n + ptr_alignment - 1) with the low bits of the alignment mask
cleared, i.e. it removes the remainder of (n + 7) modulo 8; that bit
operation is written here as the subtraction of the remainder. -/
def aligned_offset (n : Nat) : Nat :=
  (n + (ptr_alignment - 1)) - (n + (ptr_alignment - 1)) % ptr_alignment

/-- The record left behind by io_awaitable_support::operator new: the
memory resource that served the allocation (mr), the requested frame
size, the pointer slot offset, the total bytes requested from mr, the
allocation alignment, and the memory resource pointer value written
after the frame at the pointer slot (stored_mr). -/
structure frame_allocation where
  mr : Nat
  size : Nat
  ptr_offset : Nat
  total : Nat
  alloc_align : Nat
  stored_mr : Nat
deriving DecidableEq

/-- A deallocation request issued to a memory resource: which resource
is asked to deallocate, how many bytes, at which alignment. -/
structure dealloc_call where
  mr : Nat
  bytes : Nat
  align : Nat
deriving DecidableEq

/-- io_awaitable_support::operator new, given the thread-local slot
value at allocation time and the address of the process default
resource: picks the active allocator (slot, or default when the slot is
null), computes the aligned pointer slot offset, allocates
ptr_offset + sizeof_mr_ptr bytes at max_align, and writes the serving
resource pointer after the frame. -/
def op_new (tls : Option Nat) (default_resource : Nat) (size : Nat) : frame_allocation :=
  let mr := match tls with
            | some m => m
            | none => default_resource
  let ptr_offset := aligned_offset size
  { mr := mr
    size := size
    ptr_offset := ptr_offset
    total := ptr_offset + sizeof_mr_ptr
    alloc_align := max_align
    stored_mr := mr }

/-- io_awaitable_support::operator delete: recomputes the pointer slot
offset from the frame size, reads the recorded memory resource pointer
stored there, and deallocates the total size through it.  The second
argument is the thread-local slot value at release time; the source
never reads it here, and neither does the model. -/
def op_delete (f : frame_allocation) (_tls_at_release : Option Nat) : dealloc_call :=
  { mr := f.stored_mr
    bytes := aligned_offset f.size + sizeof_mr_ptr
    align := max_align }

/-- The allocator re-synchronisation performed by the await_resume of
the initial_suspend awaiter and by transform_awaiter::await_resume:
read the allocator of the stored environment; when it is non-null and
differs from the thread-local slot, overwrite the slot.  The argument
tls is the slot value before the resumption, the result is the slot
value after it. -/
def resume_alloc_sync (env : io_env) (tls : Option Nat) : Option Nat :=
  match env.allocator with
  | some fa => if some fa ≠ tls then some fa else tls
  | none => tls

/-- The demo immediate_value awaitable: ready immediately, resumes with
its stored value. -/
structure immediate_value where
  value_ : Int
deriving DecidableEq

/-- immediate_value::await_ready is constantly true. -/
def immediate_value.await_ready (_ : immediate_value) : Bool := true

/-- immediate_value::await_resume returns the stored value. -/
def immediate_value.await_resume (a : immediate_value) : Int := a.value_

/-- The body of a coroutine returning task of Int, one constructor per
statement shape the demo uses: ret v is the co_return of v; throwExc e
raises the exception with identity e; getEnvThen k is the co_await of
this_coro::environment continued by k (the printf calls of the demo are
output only and are not modelled); awaitImm a k is the co_await of the
immediate_value awaitable a continued by k; awaitTask child k is the
co_await of a child task with body child, continued by k. -/
inductive Prog where
  | ret (v : Int)
  | throwExc (e : Nat)
  | getEnvThen (k : io_env → Prog)
  | awaitImm (a : immediate_value) (k : Int → Prog)
  | awaitTask (child : Prog) (k : Int → Prog)

/-- Result of running a task body from just after its initial suspend
point to its final suspend point: the outcome of the body (value
returned, or exception raised and captured by unhandled_exception), the
final value of the thread-local allocator slot, and — as ghost
instrumentation — the list of environment pointers handed out by the
co_await of this_coro::environment anywhere in the await chain. -/
structure EvalOut where
  res : Except Nat Int
  tls : Option Nat
  envsSeen : List io_env

/-- The interpreter for task bodies, mirroring the source control flow.
For getEnvThen, await_transform returns the tag awaiter, which is ready
and resumes with the stored environment pointer with no allocator
re-synchronisation.  For awaitImm, await_transform wraps the awaitable
in transform_awaiter; await_ready is true so no suspension happens, and
transform_awaiter::await_resume re-synchronises the allocator slot and
returns the value.  For awaitTask, transform_awaiter::await_suspend
calls the await_suspend of the child task with the environment pointer
of the awaiting promise, which stores the continuation and the
environment in the child promise and symmetrically transfers to the
child; the child resumes from its initial suspend point (whose
await_resume re-synchronises the slot), runs its body, and at its final
suspend point resumes the parent; transform_awaiter::await_resume then
re-synchronises the slot and calls the task await_resume, which
rethrows a captured exception or moves the stored result out. -/
def evalBody : Prog → io_env → Option Nat → EvalOut
  | .ret v, _, tls => ⟨.ok v, tls, []⟩
  | .throwExc e, _, tls => ⟨.error e, tls, []⟩
  | .getEnvThen k, env, tls =>
      match evalBody (k env) env tls with
      | ⟨r, t, seen⟩ => ⟨r, t, env :: seen⟩
  | .awaitImm a k, env, tls =>
      evalBody (k a.await_resume) env (resume_alloc_sync env tls)
  | .awaitTask child k, env, tls =>
      match evalBody child env (resume_alloc_sync env tls) with
      | ⟨.error e, tlsc, seen⟩ => ⟨.error e, resume_alloc_sync env tlsc, seen⟩
      | ⟨.ok v, tlsc, seen⟩ =>
          match evalBody (k v) env (resume_alloc_sync env tlsc) with
          | ⟨r2, tls2, seen2⟩ => ⟨r2, tls2, seen ++ seen2⟩

/-- The completion-relevant state of the promise_type of task of Int
after the coroutine has reached its final suspend point: the captured
exception ep_ and the stored result result_ of task_return_base. -/
structure PromState where
  ep_ : Option Nat := none
  result_ : Option Int := none
deriving DecidableEq

/-- Resume a task coroutine from its initial suspend point and run it
to its final suspend point: the await_resume of the initial awaiter
re-synchronises the allocator slot, the body runs, a normal co_return
stores the result, and an escaped exception is captured by
unhandled_exception. -/
def runTask (body : Prog) (env : io_env) (tls : Option Nat) : PromState × Option Nat :=
  match evalBody body env (resume_alloc_sync env tls) with
  | ⟨.ok v, t, _⟩ => (⟨none, some v⟩, t)
  | ⟨.error e, t, _⟩ => (⟨some e, none⟩, t)

/-- task::await_resume: rethrows the captured exception if one is
stored, otherwise moves the stored result out.  Moving the value of an
empty optional is undefined in the source; the model returns 0 there
and the theorems only speak about completed tasks. -/
def task_await_resume (p : PromState) : Except Nat Int :=
  match p.ep_ with
  | some e => .error e
  | none => .ok (p.result_.getD 0)

/-- The environment run_sync constructs from its executor and stop
token arguments: the allocator member is left at its null default. -/
def mk_run_env (ex : executor_ref) (token : StopToken) : io_env :=
  { executor := ex, stop_token := token, allocator := none }

/-- run_sync: builds the environment, installs it on the promise of the
task, releases task ownership of the handle, resumes the coroutine to
completion on the calling thread (the continuation stays at its no-op
default), then rethrows a captured exception or returns the result
stored in the promise. -/
def run_sync (ex : executor_ref) (token : StopToken) (t : Prog) (tls : Option Nat) :
    Except Nat Int :=
  match (runTask t (mk_run_env ex token) tls).1 with
  | ⟨some e, _⟩ => .error e
  | ⟨none, r⟩ => .ok (r.getD 0)

/-- The demo child task compute(x): reads the propagated environment,
awaits the awaitable immediate_value with value x * 10 and returns
v + 1. -/
def compute (x : Int) : Prog :=
  .getEnvThen fun _ =>
    .awaitImm ⟨x * 10⟩ fun v =>
      .ret (v + 1)

/-- The demo parent task: reads the environment, awaits compute(3) and
compute(7) and returns the sum of the two results. -/
def parent_task : Prog :=
  .getEnvThen fun _ =>
    .awaitTask (compute 3) fun a =>
      .awaitTask (compute 7) fun b =>
        .ret (a + b)

/-- The ownership-relevant state of a task object: its coroutine handle
h_, null when moved-from or released. -/
structure task_obj where
  h_ : Option Nat
deriving DecidableEq

/-- The task move constructor: exchanges the handle of the source with
null.  The result is the pair (newly constructed task, moved-from
source). -/
def task_move_ctor (other : task_obj) : task_obj × task_obj :=
  (⟨other.h_⟩, ⟨none⟩)

/-- Task move assignment between distinct task objects (the source
guards against self assignment by address, so self move assignment is a
no-op): destroys the frame currently owned by the destination if any,
then takes the handle of the source, nulling the source.  The result is
(new destination, new source, list of frames destroyed). -/
def task_move_assign (dst src : task_obj) : task_obj × task_obj × List Nat :=
  (⟨src.h_⟩, ⟨none⟩, dst.h_.toList)

/-- The task destructor: destroys the owned frame when the handle is
non-null; the result is the list of frames destroyed. -/
def task_dtor (t : task_obj) : List Nat :=
  t.h_.toList

/-- task::release(): sets the handle to null without destroying. -/
def task_release (_t : task_obj) : task_obj :=
  ⟨none⟩

/-- task::await_suspend(cont, env): stores the awaiting coroutine as
the continuation of the child promise and installs the environment
pointer of the awaiting party, then returns the child handle for
symmetric transfer. -/
def task_await_suspend (p : io_awaitable_support) (cont : CoroHandle) (env : io_env) :
    io_awaitable_support :=
  (p.set_continuation cont).set_environment env

/-- A concrete default environment: null executor, default stop token,
null allocator (the environment run_sync builds from defaults). -/
def env0 : io_env := {}

/-- A concrete environment whose snapshot specifies allocator 3. -/
def envA : io_env := { allocator := some 3 }

/-- A concrete world of executor types in which every concrete equality
returns false. -/
def w0 : ExecWorld := ⟨fun _ _ _ => false⟩

lemma resume_alloc_sync_none {env : io_env} (h : env.allocator = none)
    (tls : Option Nat) : resume_alloc_sync env tls = tls := by
  unfold resume_alloc_sync
  rw [h]

lemma resume_alloc_sync_some {env : io_env} {a : Nat} (h : env.allocator = some a)
    (tls : Option Nat) : resume_alloc_sync env tls = some a := by
  unfold resume_alloc_sync
  rw [h]
  show (if some a ≠ tls then some a else tls) = some a
  split
  · rfl
  · next hc => exact (not_not.mp hc).symm

lemma evalBody_tls_none (p : Prog) :
    ∀ (env : io_env), env.allocator = none →
      ∀ (tls : Option Nat), (evalBody p env tls).tls = tls := by
  induction p with
  | ret v => intro env _ tls; rfl
  | throwExc e => intro env _ tls; rfl
  | getEnvThen k ih =>
      intro env h tls
      have hk := ih env env h tls
      simp only [evalBody]
      rcases hE : evalBody (k env) env tls with ⟨r, t, seen⟩
      rw [hE] at hk
      exact hk
  | awaitImm a k ih =>
      intro env h tls
      simp only [evalBody, resume_alloc_sync_none h]
      exact ih a.await_resume env h tls
  | awaitTask child k ihc ihk =>
      intro env h tls
      simp only [evalBody, resume_alloc_sync_none h]
      have hc := ihc env h tls
      rcases hE : evalBody child env tls with ⟨rc, tc, sc⟩
      rw [hE] at hc
      cases rc with
      | error e => exact hc
      | ok v =>
          show (evalBody (k v) env tc).tls = tls
          have hc2 : tc = tls := hc
          rw [hc2]
          exact ihk v env h tls

lemma evalBody_tls_some (p : Prog) :
    ∀ (env : io_env) (a : Nat), env.allocator = some a →
      (evalBody p env (some a)).tls = some a := by
  induction p with
  | ret v => intro env a _; rfl
  | throwExc e => intro env a _; rfl
  | getEnvThen k ih =>
      intro env a h
      have hk := ih env env a h
      simp only [evalBody]
      rcases hE : evalBody (k env) env (some a) with ⟨r, t, seen⟩
      rw [hE] at hk
      exact hk
  | awaitImm a2 k ih =>
      intro env a h
      simp only [evalBody, resume_alloc_sync_some h]
      exact ih a2.await_resume env a h
  | awaitTask child k ihc ihk =>
      intro env a h
      simp only [evalBody, resume_alloc_sync_some h]
      rcases hE : evalBody child env (some a) with ⟨rc, tc, sc⟩
      cases rc with
      | error e => rfl
      | ok v =>
          show (evalBody (k v) env (some a)).tls = some a
          exact ihk v env a h

lemma evalBody_envsSeen (p : Prog) :
    ∀ (env : io_env) (tls : Option Nat) (e : io_env),
      e ∈ (evalBody p env tls).envsSeen → e = env := by
  induction p with
  | ret v => intro env tls e h; simp [evalBody] at h
  | throwExc e2 => intro env tls e h; simp [evalBody] at h
  | getEnvThen k ih =>
      intro env tls e h
      simp only [evalBody] at h
      rcases hE : evalBody (k env) env tls with ⟨r, t, seen⟩
      rw [hE] at h
      rcases List.mem_cons.mp h with h1 | h1
      · exact h1
      · exact ih env env tls e (by rw [hE]; exact h1)
  | awaitImm a k ih =>
      intro env tls e h
      simp only [evalBody] at h
      exact ih a.await_resume env (resume_alloc_sync env tls) e h
  | awaitTask child k ihc ihk =>
      intro env tls e h
      simp only [evalBody] at h
      rcases hE : evalBody child env (resume_alloc_sync env tls) with ⟨rc, tc, sc⟩
      rw [hE] at h
      cases rc with
      | error e2 =>
          have h2 : e ∈ sc := h
          exact ihc env (resume_alloc_sync env tls) e (by rw [hE]; exact h2)
      | ok v =>
          have h2 : e ∈ sc ++ (evalBody (k v) env (resume_alloc_sync env tc)).envsSeen := h
          rcases List.mem_append.mp h2 with h1 | h1
          · exact ihc env (resume_alloc_sync env tls) e (by rw [hE]; exact h1)
          · exact ihk v env (resume_alloc_sync env tc) e h1

/-- Claim C1: running parent_task under the synchronous driver returns
102 — the parent awaits compute(3) and compute(7), each child computes
x * 10 + 1 by awaiting immediate_value of x * 10 and returning v + 1,
and the parent returns the sum 31 + 71; this holds for every executor
handle, stop token and initial thread-local allocator slot. -/
theorem c1_end_to_end :
    ∀ (ex : executor_ref) (token : StopToken) (tls : Option Nat) (x : Int),
      run_sync ex token parent_task tls = .ok 102 ∧
      run_sync ex token (compute x) tls = .ok (x * 10 + 1) :=
  fun _ _ _ _ => ⟨rfl, rfl⟩

/-- Claim C2: the stored continuation is consumed exactly once —
continuation() returns the stored handle and resets the field to the
no-op coroutine, a second call with no intervening set_continuation
returns the no-op coroutine, and the awaiter of final_suspend (the
terminal suspension point) is exactly the place that hands the
continuation out for resumption, via continuation(). -/
theorem c2_continuation_consumed_once :
    ∀ (s : io_awaitable_support) (c : CoroHandle),
      ((s.set_continuation c).continuation).1 = c ∧
      ((s.set_continuation c).continuation).2.cont_ = CoroHandle.noop ∧
      ((((s.set_continuation c).continuation).2).continuation).1 = CoroHandle.noop ∧
      ((s.continuation).2.continuation).1 = CoroHandle.noop ∧
      final_suspend_await_suspend (s.set_continuation c) = ((s.set_continuation c).continuation) :=
  fun _ _ => ⟨rfl, rfl, rfl, rfl, rfl⟩

/-- Claim C3: operator new serves the frame from the thread-local
active allocator, falling back to the process default resource when the
slot is null; it records the serving allocator after the frame at a
pointer-aligned offset no smaller than the frame size; and operator
delete deallocates the same total through exactly the recorded
allocator, whatever the thread-local slot holds at release time. -/
theorem c3_frame_allocator_round_trip :
    ∀ (tls tls2 : Option Nat) (d size : Nat),
      (op_new tls d size).mr = tls.getD d ∧
      (op_new tls d size).stored_mr = (op_new tls d size).mr ∧
      (op_new tls d size).ptr_offset = aligned_offset size ∧
      size ≤ (op_new tls d size).ptr_offset ∧
      ptr_alignment ∣ (op_new tls d size).ptr_offset ∧
      (op_delete (op_new tls d size) tls2).mr = (op_new tls d size).mr ∧
      (op_delete (op_new tls d size) tls2).bytes = (op_new tls d size).total := by
  intro tls tls2 d size
  refine ⟨?_, rfl, rfl, ?_, ?_, ?_, rfl⟩
  · cases tls <;> rfl
  · show size ≤ aligned_offset size
    unfold aligned_offset ptr_alignment
    omega
  · show ptr_alignment ∣ aligned_offset size
    unfold aligned_offset ptr_alignment
    omega
  · cases tls <;> rfl

/-- Claim C4: a captured failure is observed only on demand — for a
completed task, task::await_resume rethrows the captured exception when
one exists and otherwise yields the stored result; and run_sync, after
the chain terminates, rethrows the captured exception when present and
otherwise returns the result stored in the promise. -/
theorem c4_failure_observed_on_demand :
    ∀ (p : PromState) (e : Nat) (v : Int) (ex : executor_ref) (token : StopToken)
      (t : Prog) (tls : Option Nat),
      (p.ep_ = some e → task_await_resume p = .error e) ∧
      (p.ep_ = none → p.result_ = some v → task_await_resume p = .ok v) ∧
      ((evalBody t (mk_run_env ex token) tls).res = .error e →
        run_sync ex token t tls = .error e) ∧
      ((evalBody t (mk_run_env ex token) tls).res = .ok v →
        run_sync ex token t tls = .ok v) := by
  intro p e v ex token t tls
  refine ⟨?_, ?_, ?_, ?_⟩
  · intro h
    unfold task_await_resume
    rw [h]
  · intro h1 h2
    unfold task_await_resume
    rw [h1, h2]
    rfl
  · intro h
    unfold run_sync runTask
    rw [show resume_alloc_sync (mk_run_env ex token) tls = tls from rfl]
    rcases hE : evalBody t (mk_run_env ex token) tls with ⟨r, t2, sn⟩
    rw [hE] at h
    have hr : r = .error e := h
    rw [hr]
  · intro h
    unfold run_sync runTask
    rw [show resume_alloc_sync (mk_run_env ex token) tls = tls from rfl]
    rcases hE : evalBody t (mk_run_env ex token) tls with ⟨r, t2, sn⟩
    rw [hE] at h
    have hr : r = .ok v := h
    rw [hr]
    rfl

/-- Witness for C4 at concrete inputs: a promise with captured
exception 7 rethrows it, a promise with stored result 5 yields it, a
task body that raises 9 makes run_sync rethrow 9, and a task body that
returns 4 makes run_sync return 4. -/
theorem c4_failure_observed_on_demand_witness :
    task_await_resume ⟨some 7, none⟩ = .error 7 ∧
    task_await_resume ⟨none, some 5⟩ = .ok 5 ∧
    run_sync {} {} (.throwExc 9) none = .error 9 ∧
    run_sync {} {} (.ret 4) none = .ok 4 :=
  ⟨(c4_failure_observed_on_demand ⟨some 7, none⟩ 7 5 {} {} (.ret 4) none).1 rfl,
   (c4_failure_observed_on_demand ⟨none, some 5⟩ 7 5 {} {} (.ret 4) none).2.1 rfl rfl,
   (c4_failure_observed_on_demand ⟨none, none⟩ 9 5 {} {} (.throwExc 9) none).2.2.1 rfl,
   (c4_failure_observed_on_demand ⟨none, none⟩ 9 4 {} {} (.ret 4) none).2.2.2 rfl⟩

/-- Claim C5: a child task awaited from a parent observes the identical
environment as the parent — every environment handed out by the
co_await of this_coro::environment anywhere in an await chain equals
the environment the chain was started under, transitively through any
nesting depth; and the mechanism is that task::await_suspend installs
the environment pointer passed by the awaiting party (together with its
continuation) into the child promise. -/
theorem c5_environment_propagation :
    (∀ (p : Prog) (env : io_env) (tls : Option Nat) (e : io_env),
      e ∈ (evalBody p env tls).envsSeen → e = env) ∧
    (∀ (q : io_awaitable_support) (c : CoroHandle) (env : io_env),
      (task_await_suspend q c env).environment = some env ∧
      (task_await_suspend q c env).cont_ = c) :=
  ⟨fun p env tls e h => evalBody_envsSeen p env tls e h,
   fun _ _ _ => ⟨rfl, rfl⟩⟩

/-- Witness for C5 at a concrete input: the default environment is
observed inside parent_task (three observations happen: the parent and
its two children), and the theorem identifies the observation with the
root environment. -/
theorem c5_environment_propagation_witness :
    env0 ∈ (evalBody parent_task env0 none).envsSeen ∧ env0 = env0 :=
  ⟨by decide, c5_environment_propagation.1 parent_task env0 none env0 (by decide)⟩

/-- Claim C6: at most one live owner of the task handle exists — the
move constructor transfers the handle and nulls the source, move
assignment destroys the frame the destination owned, transfers the
handle and nulls the source, the destructor of an owning task destroys
exactly its one frame, the destructor of a non-owning task destroys
nothing, and release() nulls the handle so a later destructor destroys
nothing.  (Copy construction and copy assignment are deleted in the
source at the type level and have no model operation.) -/
theorem c6_single_owner :
    ∀ (t other : task_obj) (h : Nat),
      (task_move_ctor other).1.h_ = other.h_ ∧
      (task_move_ctor other).2.h_ = none ∧
      (task_move_assign t other).1.h_ = other.h_ ∧
      (task_move_assign t other).2.1.h_ = none ∧
      (task_move_assign t other).2.2 = t.h_.toList ∧
      task_dtor ⟨some h⟩ = [h] ∧
      task_dtor ⟨none⟩ = [] ∧
      task_dtor (task_release t) = [] :=
  fun _ _ _ => ⟨rfl, rfl, rfl, rfl, rfl, rfl, rfl, rfl⟩

/-- Counterexample to claim C7 as stated: resumption does NOT always
re-synchronise the thread-local slot to match the allocator of the
environment snapshot.  With a snapshot whose allocator is null (env0)
and a slot currently holding allocator 0, the resumption
re-synchronisation leaves the slot at 0, which differs from the
allocator of the snapshot; likewise a full task resumption started
under env0 ends with the slot still holding 0. -/
theorem c7_counterexample :
    resume_alloc_sync env0 (some 0) ≠ env0.allocator ∧
    (runTask (.ret 0) env0 (some 0)).2 ≠ env0.allocator := by
  decide

/-- Claim C7 as amended: whenever the allocator of the environment
snapshot is non-null, the re-synchronisation performed at entry
resumption (initial suspend) and at the resumption of every awaited
operation sets the thread-local slot to that allocator, and a whole
task resumption started under such a snapshot ends with the slot equal
to it — allocator scoping holds across arbitrarily deep await chains. -/
theorem c7_alloc_sync_when_specified :
    ∀ (env : io_env) (tls : Option Nat) (a : Nat) (p : Prog),
      env.allocator = some a →
      resume_alloc_sync env tls = some a ∧
      (runTask p env tls).2 = some a := by
  intro env tls a p h
  refine ⟨resume_alloc_sync_some h tls, ?_⟩
  unfold runTask
  rw [resume_alloc_sync_some h tls]
  have hb := evalBody_tls_some p env a h
  rcases hE : evalBody p env (some a) with ⟨r, t, sn⟩
  rw [hE] at hb
  cases r with
  | error e => exact hb
  | ok v => exact hb

/-- Witness for C7 as amended, at a concrete input: a snapshot with
allocator 3 forces the slot to 3 at the resumption point and leaves it
at 3 after a full task resumption. -/
theorem c7_alloc_sync_when_specified_witness :
    resume_alloc_sync envA none = some 3 ∧
    (runTask (.ret 0) envA none).2 = some 3 :=
  c7_alloc_sync_when_specified envA none 3 (.ret 0) rfl

/-- Counterexample to claim C8 as stated: handles wrapping different
concrete types (distinct vtables 10 and 20) do NOT always compare
unequal — when both wrap the same object address, pointer identity
short-circuits before the vtable comparison and operator== returns
true.  Both handles are well formed, and the concrete equality of the
world used here is constantly false, so the true result comes from the
address comparison alone. -/
theorem c8_counterexample :
    executor_ref.beq w0 ⟨some 1, some 10⟩ ⟨some 1, some 20⟩ = true ∧
    (⟨some 1, some 10⟩ : executor_ref).vt_ ≠ (⟨some 1, some 20⟩ : executor_ref).vt_ ∧
    executor_ref.WF ⟨some 1, some 10⟩ ∧
    executor_ref.WF ⟨some 1, some 20⟩ := by
  refine ⟨rfl, by decide, ?_, ?_⟩ <;> exact (by unfold executor_ref.WF; decide)

/-- Claim C8 as amended: for well-formed handles (object pointer and
vtable pointer both null or both set, as the constructors guarantee),
operator== returns true exactly when the handles wrap the same object
address (including both null), or their dispatch tables match and the
concrete equality of the wrapped type holds on the two wrapped values;
and handles wrapping different concrete types compare unequal whenever
they wrap distinct addresses. -/
theorem c8_executor_ref_equality :
    ∀ (w : ExecWorld) (a b : executor_ref),
      executor_ref.WF a → executor_ref.WF b →
      ((executor_ref.beq w a b = true ↔
        (a.ex_ = b.ex_ ∨
         (a.vt_ = b.vt_ ∧ ∃ v, a.vt_ = some v ∧ w.equalsImpl v a.ex_ b.ex_ = true))) ∧
       (a.ex_ ≠ b.ex_ → a.vt_ ≠ b.vt_ → executor_ref.beq w a b = false)) := by
  intro w a b hwa hwb
  unfold executor_ref.WF at hwa hwb
  constructor
  · unfold executor_ref.beq
    by_cases hex : a.ex_ = b.ex_
    · simp [hex]
    · rw [if_neg hex]
      by_cases hvt : a.vt_ = b.vt_
      · rw [if_neg (not_not.mpr hvt), ← hvt]
        cases hv : a.vt_ with
        | none =>
            exfalso
            exact hex ((hwa.mpr hv).trans (hwb.mpr (hvt ▸ hv)).symm)
        | some v =>
            simp [hex]
      · simp [hex, hvt]
  · intro hex hvt
    unfold executor_ref.beq
    simp [hex, hvt]

/-- Witness for C8 as amended, at concrete inputs: two well-formed
handles with distinct addresses and distinct vtables compare unequal,
and two well-formed handles wrapping the same address compare equal by
pointer identity. -/
theorem c8_executor_ref_equality_witness :
    executor_ref.beq w0 ⟨some 1, some 10⟩ ⟨some 2, some 20⟩ = false ∧
    executor_ref.beq w0 ⟨some 1, some 10⟩ ⟨some 1, some 10⟩ = true :=
  ⟨(c8_executor_ref_equality w0 ⟨some 1, some 10⟩ ⟨some 2, some 20⟩
      (by unfold executor_ref.WF; decide)
      (by unfold executor_ref.WF; decide)).2 (by decide) (by decide),
   (c8_executor_ref_equality w0 ⟨some 1, some 10⟩ ⟨some 1, some 10⟩
      (by unfold executor_ref.WF; decide)
      (by unfold executor_ref.WF; decide)).1.mpr (Or.inl rfl)⟩

/-- Claim C9: destroying an io_awaitable_support whose continuation
field holds a handle other than the no-op coroutine destroys the frame
of that continuation; when the field holds the no-op coroutine the
destructor destroys nothing. -/
theorem c9_support_dtor_destroys_pending_continuation :
    ∀ (s : io_awaitable_support),
      (s.cont_ ≠ CoroHandle.noop → io_awaitable_support.dtor s = [s.cont_]) ∧
      (s.cont_ = CoroHandle.noop → io_awaitable_support.dtor s = []) := by
  intro s
  constructor
  · intro h
    unfold io_awaitable_support.dtor
    rw [if_pos h]
  · intro h
    unfold io_awaitable_support.dtor
    rw [if_neg (by rw [h]; exact fun hc => hc rfl)]

/-- Witness for C9 at concrete inputs: a support holding the real
continuation 5 destroys exactly that frame, and a support holding the
no-op coroutine destroys nothing. -/
theorem c9_support_dtor_witness :
    io_awaitable_support.dtor ⟨none, CoroHandle.real 5⟩ = [CoroHandle.real 5] ∧
    io_awaitable_support.dtor ⟨none, CoroHandle.noop⟩ = [] :=
  ⟨(c9_support_dtor_destroys_pending_continuation ⟨none, CoroHandle.real 5⟩).1 (by decide),
   (c9_support_dtor_destroys_pending_continuation ⟨none, CoroHandle.noop⟩).2 rfl⟩

/-- Claim C10: the thread-local slot is written only by the resumption
re-synchronisation, and there only when the snapshot allocator is
non-null and differs from the current slot value: a null snapshot
allocator leaves the slot unchanged at a single resumption point and
across a whole body evaluation; and concretely, after a task with
snapshot allocator 3 installs 3, resuming a task whose snapshot
allocator is null leaves 3 in the slot rather than resetting it. -/
theorem c10_slot_write_discipline :
    ∀ (env : io_env) (tls : Option Nat) (p : Prog),
      (env.allocator = none → resume_alloc_sync env tls = tls) ∧
      (resume_alloc_sync env tls ≠ tls → env.allocator ≠ none ∧ env.allocator ≠ tls) ∧
      (env.allocator = none → (evalBody p env tls).tls = tls) ∧
      (runTask (.ret 0) envA none).2 = some 3 ∧
      (runTask (.ret 0) env0 (some 3)).2 = some 3 := by
  intro env tls p
  refine ⟨fun h => resume_alloc_sync_none h tls, ?_, fun h => evalBody_tls_none p env h tls,
    by decide, by decide⟩
  intro hne
  cases hall : env.allocator with
  | none => exact absurd (resume_alloc_sync_none hall tls) hne
  | some fa =>
      by_cases hc : some fa = tls
      · exfalso
        apply hne
        unfold resume_alloc_sync
        rw [hall]
        show (if some fa ≠ tls then some fa else tls) = tls
        rw [if_neg (not_not.mpr hc)]
      · exact ⟨Option.some_ne_none fa, hc⟩

/-- Witness for C10 at concrete inputs: with a null snapshot allocator
the resumption leaves slot 3 unchanged, a whole parent_task evaluation
under a null snapshot allocator leaves slot 3 unchanged, and a
resumption that does change the slot (snapshot allocator 3, slot null)
certifies a non-null snapshot allocator differing from the slot. -/
theorem c10_slot_write_discipline_witness :
    resume_alloc_sync env0 (some 3) = some 3 ∧
    (evalBody parent_task env0 (some 3)).tls = some 3 ∧
    (envA.allocator ≠ none ∧ envA.allocator ≠ none) :=
  ⟨(c10_slot_write_discipline env0 (some 3) parent_task).1 rfl,
   (c10_slot_write_discipline env0 (some 3) parent_task).2.2.1 rfl,
   (c10_slot_write_discipline envA none (.ret 0)).2.1 (by decide)⟩

end Capy
